import Mathlib

/-!
Verification of the openprovider.py client library core against its
specification.  The Python source under `openprovider/api.py` and
`openprovider/models.py` is shallowly embedded below: pure fragments become
Lean functions, exception-raising code returns `Except`, and Python
truthiness of optional strings is made explicit.  Modules of the repository
whose source is not available (`openprovider/util.py`,
`openprovider/data/exception_map.py`, `openprovider/exceptions.py`,
`openprovider/modules.py`, `openprovider/response.py`) are modelled from the
specification and are marked as such in their doc comments.
-/

namespace Openprovider

/-! ## Python truthiness of optional string values

`bool(None) = False`, `bool("") = False`, `bool(s) = True` for non-empty `s`.
Used by `OpenProvider.__init__` (`bool(password) == bool(password_hash)`)
and by the `OE` optional-element helper. -/

def pyTruthy : Option String → Bool
  | none => false
  | some s => !(s == "")

/-! ## `OpenProvider.__init__` (src/openprovider/api.py lines 40-66)

Only the credential-validation part is state that the claims touch; the
session/module setup has no observable effect on the embedded behaviour. -/

/-- The configuration held by a successfully constructed client. -/
structure Client where
  username : String
  password : Option String
  password_hash : Option String
  url : String
deriving Repr, DecidableEq

/-- Embeds `OpenProvider.__init__`: raises `ValueError` when
`bool(password) == bool(password_hash)`, otherwise stores the fields. -/
def OpenProvider_init (username : String) (password : Option String)
    (url : String) (password_hash : Option String) : Except String Client :=
  if pyTruthy password == pyTruthy password_hash then
    Except.error "Provide either a password or a password hash"
  else
    Except.ok ⟨username, password, password_hash, url⟩

/-! ## `snake_to_camel` (openprovider/util.py — not under src/) -/

/-- Capitalise the first character of a string (as Python `str.capitalize`
acts on the words produced by splitting on underscores). -/
def capitalizeWord (s : String) : String :=
  match s.data with
  | [] => ""
  | c :: cs => String.mk (c.toUpper :: cs)

/-- Split a character list at every underscore, keeping empty components,
with the semantics of Python `text.split` on a single underscore. -/
def splitUnderscore : List Char → List (List Char)
  | [] => [[]]
  | c :: cs =>
    let r := splitUnderscore cs
    if c = '_' then [] :: r
    else
      match r with
      | [] => [[c]]
      | w :: ws => (c :: w) :: ws

/-- Modelled from the spec: the source of `openprovider.util.snake_to_camel`
is not under src/.  The case-conversion rule of the spec: "an underscore-separated
name is translated to camelCase before subtree lookup (e.g. `company_name` →
`companyName`)".  The first underscore-separated component is kept as is and
every later component is capitalised. -/
def snake_to_camel (s : String) : String :=
  match (splitUnderscore s.data).map String.mk with
  | [] => s
  | first :: rest => first ++ String.join (rest.map capitalizeWord)

/-! ## `Model.__getattr__` (src/openprovider/models.py lines 17-54)

The wrapped lxml-objectified element is embedded as a list of
`(tag, value)` children together with the fixed attribute namespace of the
element class itself.  `hasattr(self._obj, attr)` is true both for the
members of the element API (`tag`, `text`, `get`, `iterchildren`, ...) and
for child elements, and `getattr(self._obj, attr)` resolves the class
members first — the child lookup of lxml.objectify lives in the
`__getattr__` fallback of the element, which Python consults only when the
normal class-attribute lookup fails.  The instance dictionary written by
`Model.__init__` holds exactly the two slots `_obj` and `attrs`, which is
what `attr in self.__dict__` consults. -/

/-- An lxml-objectified subtree as the model layer sees it: an ordered list
of child elements, each a tag together with its (leaf) value.
`getattr` on the objectified element returns the first child with the
requested tag. -/
structure ObjElem where
  children : List (String × String)
deriving Repr, DecidableEq

/-- The state of a `Model` instance: the wrapped element (`self._obj`, which
may be `None`) and the manual override attributes (`self.attrs`) as the
ordered key/value pairs of the keyword arguments of the constructor. -/
structure PyModel where
  obj : Option ObjElem
  attrs : List (String × String)
deriving Repr, DecidableEq

/-- The keys of the instance dictionary that `Model.__init__` populates:
`self._obj` and `self.attrs`. -/
def modelDictKeys : List String := ["_obj", "attrs"]

/-- The underscore-free member names of the attribute namespace of lxml
objectified elements (the `lxml.etree._Element` properties and methods
plus the `ObjectifiedElement` additions), which `hasattr(self._obj, attr)`
finds and `getattr(self._obj, attr)` resolves before any child lookup.
Members whose name contains an underscore (the dunder methods and private
members) are irrelevant here: every requested name containing an
underscore is rewritten by `snake_to_camel` into an underscore-free name
before the lookup, so they can never be reached through
`Model.__getattr__`.  The external library is frozen to this fixed,
documented namespace. -/
def lxmlElementApi : List String :=
  ["addattr", "addnext", "addprevious", "append", "attrib", "base", "clear",
   "countchildren", "cssselect", "descendantpaths", "extend", "find",
   "findall", "findtext", "get", "getchildren", "getiterator", "getnext",
   "getparent", "getprevious", "getroottree", "index", "insert", "items",
   "iter", "iterancestors", "iterchildren", "iterdescendants", "iterfind",
   "itersiblings", "itertext", "keys", "makeelement", "nsmap", "prefix",
   "remove", "replace", "set", "sourceline", "tag", "tail", "text",
   "values", "xpath"]

/-- A value produced by attribute resolution: one of the own instance
fields of the wrapper (the `attr in self.__dict__` branch), a member of the
element API of the wrapped object (`self._obj.tag`,
`self._obj.iterchildren`, ...), or a plain value from the override mapping
or from a child of the wrapped subtree. -/
inductive AttrValue where
  | selfField (name : String)
  | elementApi (name : String)
  | val (s : String)
deriving Repr, DecidableEq

/-- The payload of the `AttributeError` raised on lines 53-54 of
src/openprovider/models.py: the (already case-converted) attribute name and
the list of tried keys (`attr_keys + obj_keys`), from which the message
string `Model has no attribute %s (tried %s)` is formatted by
`renderAttributeError`. -/
structure AttributeNotFound where
  attr : String
  tried : List String
deriving Repr, DecidableEq

/-- A single-quote character, written via its code point. -/
def sq : String := String.singleton (Char.ofNat 39)

/-- The message string of the raised `AttributeError`, mirroring the `%`
formatting on lines 53-54 of src/openprovider/models.py
(`Model has no attribute <q>%s<q> (tried <q>%s<q)`, the tried keys joined
with `<q>, <q>` where `<q>` is a single quote). -/
def renderAttributeError (e : AttributeNotFound) : String :=
  "Model has no attribute " ++ sq ++ e.attr ++ sq ++ " (tried " ++ sq ++
    String.intercalate (sq ++ ", " ++ sq) e.tried ++ sq ++ ")"

/-- The child tags listed in the error diagnostic:
`[t.tag for t in self._obj.iterchildren()]` when `self._obj` is truthy,
`[]` otherwise (an element without children is falsy in lxml, and then the
comprehension would be empty anyway). -/
def objKeys : Option ObjElem → List String
  | none => []
  | some o => o.children.map Prod.fst

/-- The name actually used for every lookup inside `Model.__getattr__`:
lines 32-33 of src/openprovider/models.py rewrite the requested name with
`snake_to_camel` when it contains an underscore, before any of the lookups
happen. -/
def lookupName (attr0 : String) : String :=
  if attr0.data.contains '_' then snake_to_camel attr0 else attr0

/-- Embeds `Model.__getattr__` (src/openprovider/models.py lines 21-54):
if the requested name contains an underscore it is first rewritten by
`snake_to_camel`; the rewritten name is then looked up in the instance
dictionary, in `self.attrs`, and on the wrapped element
(`hasattr(self._obj, attr)`, which finds the element-API members first and
the child elements second), in that order; otherwise an `AttributeError`
listing the override keys and the child tags is raised.
(`self.attrs.keys()` is a list in the Python 2 dialect of the source, so
`attr_keys + obj_keys` is list concatenation.  When `self._obj` is `None`,
every attribute of `None` is a dunder whose name contains an underscore,
and the converted names reaching this lookup are underscore-free, so
`hasattr(None, attr)` is false here.) -/
def model_getattr (m : PyModel) (attr0 : String) : Except AttributeNotFound AttrValue :=
  let attr := lookupName attr0
  if attr ∈ modelDictKeys then
    Except.ok (AttrValue.selfField attr)
  else
    match m.attrs.lookup attr with
    | some v => Except.ok (AttrValue.val v)
    | none =>
      match m.obj with
      | some o =>
        if attr ∈ lxmlElementApi then
          Except.ok (AttrValue.elementApi attr)
        else
          match o.children.lookup attr with
          | some v => Except.ok (AttrValue.val v)
          | none => Except.error ⟨attr, m.attrs.map Prod.fst ++ objKeys m.obj⟩
      | none => Except.error ⟨attr, m.attrs.map Prod.fst ++ objKeys m.obj⟩

/-! ## The request envelope (src/openprovider/api.py lines 74-85)

`E.openXML(E.credentials(E.username(u), OE(password, p), OE(hash, h)),
tree)` serialized with the `c14n` method.  `E`/`OE` come from
`openprovider.modules`, which is not under src/. -/

/-- An XML tree: an element with a tag and an ordered list of children, or a
text node.  (The envelope built by the client carries no XML attributes.) -/
inductive Xml where
  | elem (tag : String) (children : List Xml)
  | text (s : String)
deriving Repr

/-- Modelled from the spec: the element helper `E` of
`openprovider.modules` is not under src/; per the spec it builds an ordered
element whose children appear exactly in the order given. -/
def E (tag : String) (children : List Xml) : Xml :=
  Xml.elem tag children

/-- Modelled from the spec: the optional-element helper `OE` of
`openprovider.modules` is not under src/; per the spec an optional
password/hash child is "present only if the corresponding value is
non-empty", so `OE` yields a singleton child list for a truthy value and no
child otherwise. -/
def OE (tag : String) (value : Option String) : List Xml :=
  if pyTruthy value then [Xml.elem tag [Xml.text (value.getD "")]] else []

/-- The `credentials` child of the envelope: the username element followed
by the optional password and hash elements. -/
def credentialsElem (c : Client) : Xml :=
  E "credentials"
    ([E "username" [Xml.text c.username]] ++
      OE "password" c.password ++
      OE "hash" c.password_hash)

/-- Embeds the envelope construction of `OpenProvider.request`
(src/openprovider/api.py lines 74-85): `openXML` wrapping the `credentials`
element (username, then optional password, then optional hash) followed by
the caller-supplied payload tree. -/
def buildEnvelope (c : Client) (tree : Xml) : Xml :=
  E "openXML" [credentialsElem c, tree]

mutual

/-- Canonical serialization (`lxml.etree.tostring` with the `c14n` method):
a deterministic rendering with fixed child order and no inserted
whitespace.  Character escaping is irrelevant to the claims and omitted. -/
def serializeXml : Xml → String
  | Xml.text s => s
  | Xml.elem tag children =>
    "<" ++ tag ++ ">" ++ serializeXmlList children ++ "</" ++ tag ++ ">"

/-- Serialize a list of sibling nodes in order, with nothing in between. -/
def serializeXmlList : List Xml → String
  | [] => ""
  | c :: cs => serializeXml c ++ serializeXmlList cs

end

/-- Whether an element has a direct child element with the given tag. -/
def hasChildTag (x : Xml) (tag : String) : Bool :=
  match x with
  | Xml.text _ => false
  | Xml.elem _ children => children.any fun c =>
      match c with
      | Xml.elem t _ => t == tag
      | Xml.text _ => false

/-! ## Transport step (src/openprovider/api.py lines 89-93)

```
try:
    apiresponse = self.session.post(self.url, data=apirequest)
    apiresponse.raise_for_status()
except requests.RequestException as e:
    raise ServiceUnavailable(str(e))
```

The HTTP transport (`requests`) is an external collaborator.  A call to
`session.post` either produces a response object (with a status code and a
body) or raises some subclass of `requests.RequestException`
(`ConnectionError`, `Timeout`, DNS failures surfacing as
`ConnectionError`, ...).  `Response.raise_for_status` raises `HTTPError`
(also a `RequestException` subclass) exactly for status codes in the 4xx
and 5xx ranges, and returns normally for every other status. -/

/-- Outcome of the external `session.post` call: either a response with
its HTTP status code and body bytes, or a raised `requests.RequestException`
of some subtype (connection failure, timeout, DNS failure, ...) carrying
its error text. -/
inductive TransportResult where
  | response (status : Nat) (body : String)
  | raised (subtype : String) (text : String)
deriving Repr, DecidableEq

/-- A raised `requests.RequestException`: the subclass name and the
exception text `str(e)`. -/
structure RequestsExc where
  subtype : String
  text : String
deriving Repr, DecidableEq

/-- `Response.raise_for_status` of the external `requests` library: raises
`requests.HTTPError` exactly for 4xx and 5xx status codes. -/
def raise_for_status (status : Nat) : Option RequestsExc :=
  if 400 ≤ status ∧ status < 600 then
    some ⟨"HTTPError", "HTTP status " ++ toString status⟩
  else
    none

/-- The body of the `try` block on lines 90-91 of src/openprovider/api.py:
post, then `raise_for_status`; any `requests.RequestException` propagates
out of the block. -/
def tryPost (r : TransportResult) : Except RequestsExc (Nat × String) :=
  match r with
  | TransportResult.raised subtype text => Except.error ⟨subtype, text⟩
  | TransportResult.response status body =>
    match raise_for_status status with
    | some e => Except.error e
    | none => Except.ok (status, body)

/-- An exception escaping the transport step of `OpenProvider.request`.
Modelled from the spec: `openprovider.exceptions` is not under src/;
`ServiceUnavailable` is constructed with the underlying transport error
text.  The `uncaught` constructor stands for a `requests` exception that
would escape unconverted — the embedding proves it never occurs. -/
inductive TransportError where
  | serviceUnavailable (text : String)
  | uncaught (e : RequestsExc)
deriving Repr, DecidableEq

/-- Embeds lines 89-93 of src/openprovider/api.py: the whole `try` block
with its `except requests.RequestException` handler, which re-raises every
caught exception as `ServiceUnavailable(str(e))`.  The transport is invoked
exactly once; there is no retry. -/
def sendStep (r : TransportResult) : Except TransportError (Nat × String) :=
  match tryPost r with
  | Except.error e => Except.error (TransportError.serviceUnavailable e.text)
  | Except.ok x => Except.ok x

/-! ## Error mapping and reply dispatch (src/openprovider/api.py lines 98-105) -/

/-- An exception kind raised for a non-zero reply code.  Modelled from the
spec: `openprovider.data.exception_map` is not under src/; per the spec the
table "maps a numeric response code to a specific exception kind" and
"unmapped codes fall back to a generic API-error kind". -/
inductive ExceptionKind where
  | mappedKind (code : Int)
  | genericError
deriving Repr, DecidableEq

/-- Modelled from the spec: the explicit codes of the static error-mapping
table of `openprovider.data.exception_map` (not under src/).  The
end-to-end scenario B of the spec exhibits 346 as a mapped code. -/
def exceptionTableCodes : List Int := [346]

/-- Modelled from the spec: `from_code` of
`openprovider.data.exception_map` (not under src/).  Per the spec it is a
pure lookup, total over all integers, returning the kind of the explicit
table entry when one exists and the generic fallback kind otherwise. -/
def from_code (code : Int) : ExceptionKind :=
  if code ∈ exceptionTableCodes then ExceptionKind.mappedKind code
  else ExceptionKind.genericError

/-- The `<reply>` element of a well-formed response tree: a numeric `code`,
a `desc` string, and an optional `data` payload
(`getattr` with a default of the empty string turns a missing `data` child
to the empty string). -/
structure Reply where
  code : Int
  desc : String
  data : Option String
deriving Repr, DecidableEq

/-- A parsed, well-formed response tree as `OpenProvider.request` inspects
it: its `reply` element. -/
structure ResponseTree where
  reply : Reply
deriving Repr, DecidableEq

/-- Modelled from the spec: the generic `Response` wrapper of
`openprovider.response` (not under src/), which wraps the parsed tree. -/
structure Response where
  tree : ResponseTree
deriving Repr, DecidableEq

/-- The exception raised for a non-zero reply code:
`klass("{0} ({1}) {2}".format(desc, code, data), code)` — the resolved
kind, the formatted message and the numeric code carried as a field. -/
structure ApiError where
  kind : ExceptionKind
  message : String
  code : Int
deriving Repr, DecidableEq

/-- `str` of an objectified integer element, as used by `"{1}".format(code)`. -/
def intStr (i : Int) : String := toString i

/-- Embeds lines 98-105 of src/openprovider/api.py: a zero reply code wraps
the tree in a `Response`; a non-zero code raises the exception kind
resolved by `from_code` with message `"{desc} ({code}) {data}"` (a missing
`data` child formats as the empty string) and the numeric code as a field. -/
def handleReply (tree : ResponseTree) : Except ApiError Response :=
  if tree.reply.code == 0 then
    Except.ok ⟨tree⟩
  else
    Except.error
      ⟨from_code tree.reply.code,
        tree.reply.desc ++ " (" ++ intStr tree.reply.code ++ ") " ++
          (tree.reply.data.getD ""),
        tree.reply.code⟩

/-! ## Theorems -/

/-- C1: For every username (and endpoint URL), constructing an
`OpenProvider` client with both a password and a password hash supplied, or
with neither supplied, raises the configuration `ValueError`; constructing
it with exactly one of the two secrets supplied succeeds.  A secret is
supplied when it is present and non-empty (Python truthiness; claim C10
records that an empty string counts as absent). -/
theorem C1_credential_invariant (username url : String) (p h : Option String) :
    (pyTruthy p = true ∧ pyTruthy h = true →
      OpenProvider_init username p url h =
        Except.error "Provide either a password or a password hash") ∧
    (pyTruthy p = false ∧ pyTruthy h = false →
      OpenProvider_init username p url h =
        Except.error "Provide either a password or a password hash") ∧
    (pyTruthy p ≠ pyTruthy h →
      OpenProvider_init username p url h = Except.ok ⟨username, p, h, url⟩) := by
  refine ⟨fun hc => ?_, fun hc => ?_, fun hc => ?_⟩
  · simp [OpenProvider_init, hc.1, hc.2]
  · simp [OpenProvider_init, hc.1, hc.2]
  · have hb : (pyTruthy p == pyTruthy h) = false := by
      simp only [beq_eq_false_iff_ne, ne_eq]
      exact hc
    simp [OpenProvider_init, hb]

/-- Witness for C1 at concrete inputs: both secrets, neither secret, and
exactly one secret. -/
theorem C1_credential_invariant_witness :
    OpenProvider_init "user" (some "pw") "https://api.openprovider.eu" (some "hh") =
      Except.error "Provide either a password or a password hash" ∧
    OpenProvider_init "user" none "https://api.openprovider.eu" none =
      Except.error "Provide either a password or a password hash" ∧
    OpenProvider_init "user" (some "pw") "https://api.openprovider.eu" none =
      Except.ok ⟨"user", some "pw", none, "https://api.openprovider.eu"⟩ :=
  ⟨(C1_credential_invariant "user" "https://api.openprovider.eu" (some "pw") (some "hh")).1
      (by decide),
   (C1_credential_invariant "user" "https://api.openprovider.eu" none none).2.1
      (by decide),
   (C1_credential_invariant "user" "https://api.openprovider.eu" (some "pw") none).2.2
      (by decide)⟩

/-- C10: At the public constructor an empty-string secret is treated as
absent: password `""` with no hash (or hash `""` with no password) raises
the same configuration error as supplying neither, and a non-empty password
together with an empty-string hash succeeds. -/
theorem C10_empty_string_secret_absent (u url pw : String) (hpw : pw ≠ "") :
    OpenProvider_init u (some "") url none = OpenProvider_init u none url none ∧
    OpenProvider_init u (some "") url none =
      Except.error "Provide either a password or a password hash" ∧
    OpenProvider_init u none url (some "") =
      Except.error "Provide either a password or a password hash" ∧
    OpenProvider_init u (some pw) url (some "") =
      Except.ok ⟨u, some pw, some "", url⟩ := by
  have hb : (pyTruthy (some pw) == pyTruthy (some "")) = false := by
    simp [pyTruthy, hpw]
  exact ⟨rfl, rfl, rfl, by simp [OpenProvider_init, hb]⟩

/-- Witness for C10 at the non-empty password `"secret"`. -/
theorem C10_empty_string_secret_absent_witness :
    OpenProvider_init "u" (some "") "x" none = OpenProvider_init "u" none "x" none ∧
    OpenProvider_init "u" (some "") "x" none =
      Except.error "Provide either a password or a password hash" ∧
    OpenProvider_init "u" none "x" (some "") =
      Except.error "Provide either a password or a password hash" ∧
    OpenProvider_init "u" (some "secret") "x" (some "") =
      Except.ok ⟨"u", some "secret", some "", "x"⟩ :=
  C10_empty_string_secret_absent "u" "x" "secret" (by decide)

/-- C4: For every model wrapper over a subtree with a child element
`companyName` (and no overriding attribute of that name), attribute lookup
under the name `companyName` and attribute lookup under the name
`company_name` resolve to the same value. -/
theorem C4_case_bridging (o : ObjElem) (attrs : List (String × String)) (v : String)
    (hchild : o.children.lookup "companyName" = some v)
    (hno : attrs.lookup "companyName" = none) :
    model_getattr ⟨some o, attrs⟩ "companyName" = Except.ok (AttrValue.val v) ∧
    model_getattr ⟨some o, attrs⟩ "company_name" = Except.ok (AttrValue.val v) := by
  have h1 : lookupName "companyName" = "companyName" := rfl
  have h2 : lookupName "company_name" = "companyName" := rfl
  have hd : "companyName" ∉ modelDictKeys := by decide
  have ha : "companyName" ∉ lxmlElementApi := by decide
  constructor <;>
    simp [model_getattr, h1, h2, hd, ha, hno, hchild]

/-- Witness for C4: a subtree whose `companyName` child holds `"ACME"` and
no overrides. -/
theorem C4_case_bridging_witness :
    model_getattr ⟨some ⟨[("companyName", "ACME")]⟩, []⟩ "companyName" =
      Except.ok (AttrValue.val "ACME") ∧
    model_getattr ⟨some ⟨[("companyName", "ACME")]⟩, []⟩ "company_name" =
      Except.ok (AttrValue.val "ACME") :=
  C4_case_bridging ⟨[("companyName", "ACME")]⟩ [] "ACME" (by decide) (by decide)

/-- C5 counterexample: an override supplied under the underscore-separated
key `company_name` is NOT found when requested under that same name — the
requested name is rewritten to `companyName` before the override-mapping
lookup, so the resolution fails instead of returning the override value. -/
theorem C5_counterexample_override_key_converted :
    model_getattr ⟨none, [("company_name", "X")]⟩ "company_name" =
      Except.error ⟨"companyName", ["company_name"]⟩ := rfl

/-- C5 (amended): the case conversion to camelCase is applied to the
requested name before every lookup, the override-mapping lookup included:
when the requested name contains an underscore, both the override mapping
and the subtree are consulted under the converted name, so an override
stored under the camelCase key is found under the underscore-separated
request, while an override stored only under the underscore-separated key
is not found at all. -/
theorem C5_amended_conversion_before_override (m : PyModel) (attr0 : String)
    (hu : attr0.data.contains '_' = true)
    (hdict : lookupName attr0 ∉ modelDictKeys) :
    (∀ v, m.attrs.lookup (lookupName attr0) = some v →
      model_getattr m attr0 = Except.ok (AttrValue.val v)) ∧
    (m.attrs.lookup (lookupName attr0) = none → m.obj = none →
      model_getattr m attr0 =
        Except.error ⟨lookupName attr0, m.attrs.map Prod.fst⟩) := by
  constructor
  · intro v hv
    simp [model_getattr, hdict, hv]
  · intro hnone hobj
    simp [model_getattr, hdict, hnone, hobj, objKeys]

/-- Witness for C5 (amended): with overrides
`companyName = "V", company_name = "W"` the request `company_name` is
resolved through the converted key and yields `"V"`, not `"W"`. -/
theorem C5_amended_conversion_before_override_witness :
    model_getattr ⟨none, [("companyName", "V"), ("company_name", "W")]⟩ "company_name" =
      Except.ok (AttrValue.val "V") :=
  (C5_amended_conversion_before_override
      ⟨none, [("companyName", "V"), ("company_name", "W")]⟩ "company_name"
      (by decide) (by decide)).1 "V" (by decide)

/-- C6: when both the override mapping and the wrapped subtree define a
field reachable under the (converted) requested name, attribute resolution
returns the override value and never the subtree value. -/
theorem C6_override_precedence (m : PyModel) (attr0 : String) (o : ObjElem)
    (v w : String)
    (hobj : m.obj = some o)
    (hdict : lookupName attr0 ∉ modelDictKeys)
    (hov : m.attrs.lookup (lookupName attr0) = some v)
    (hsub : o.children.lookup (lookupName attr0) = some w) :
    model_getattr m attr0 = Except.ok (AttrValue.val v) ∧
    (v ≠ w → model_getattr m attr0 ≠ Except.ok (AttrValue.val w)) := by
  have hres : model_getattr m attr0 = Except.ok (AttrValue.val v) := by
    simp [model_getattr, hdict, hov]
  refine ⟨hres, fun hvw hcontra => ?_⟩
  rw [hres] at hcontra
  simp at hcontra
  exact hvw hcontra

/-- Witness for C6: override `companyName = "OVR"` beats the subtree child
`companyName = "SUB"`. -/
theorem C6_override_precedence_witness :
    model_getattr ⟨some ⟨[("companyName", "SUB")]⟩, [("companyName", "OVR")]⟩
        "companyName" = Except.ok (AttrValue.val "OVR") :=
  (C6_override_precedence ⟨some ⟨[("companyName", "SUB")]⟩, [("companyName", "OVR")]⟩
      "companyName" ⟨[("companyName", "SUB")]⟩ "OVR" "SUB"
      rfl (by decide) (by decide) (by decide)).1

/-- C7 counterexample: the name `tag` matches neither an override key nor a
subtree child of the wrapped element, yet resolution does not fail — `tag`
is a member of the element API, so `hasattr(self._obj, "tag")` is true and
the program returns the tag member of the wrapped element instead of
raising the `AttributeError` that the claim demands. -/
theorem C7_counterexample_element_api_tag :
    model_getattr ⟨some ⟨[("a", "1"), ("b", "2")]⟩, []⟩ "tag" =
      Except.ok (AttrValue.elementApi "tag") := rfl

/-- C7 (amended): a requested name whose converted form matches none of the
two private implementation slots of the wrapper, the override keys, the
members of the Python attribute API of the wrapped element, and the subtree
child tags makes resolution fail with an `AttributeError` whose diagnostic
lists all known override keys and all known subtree child tags. -/
theorem C7_amended_attribute_not_found (m : PyModel) (attr0 : String)
    (hdict : lookupName attr0 ∉ modelDictKeys)
    (hov : m.attrs.lookup (lookupName attr0) = none)
    (hapi : lookupName attr0 ∉ lxmlElementApi)
    (hsub : ∀ o, m.obj = some o → o.children.lookup (lookupName attr0) = none) :
    model_getattr m attr0 =
      Except.error ⟨lookupName attr0, m.attrs.map Prod.fst ++ objKeys m.obj⟩ ∧
    (∀ k ∈ m.attrs.map Prod.fst, k ∈ m.attrs.map Prod.fst ++ objKeys m.obj) ∧
    (∀ o, m.obj = some o → ∀ t ∈ o.children.map Prod.fst,
      t ∈ m.attrs.map Prod.fst ++ objKeys m.obj) := by
  refine ⟨?_, fun k hk => List.mem_append_left _ hk, fun o ho t ht => ?_⟩
  · cases hm : m.obj with
    | none => simp [model_getattr, hdict, hov, hm]
    | some o => simp [model_getattr, hdict, hov, hapi, hm, hsub o hm]
  · refine List.mem_append_right _ ?_
    rw [ho]
    exact ht

/-- Witness for C7 (amended): the name `zzz` is absent from the overrides
`{k: v}`, from the element API and from the subtree children `a, b`; the
diagnostic lists all of `k`, `a`, `b`. -/
theorem C7_amended_attribute_not_found_witness :
    model_getattr ⟨some ⟨[("a", "1"), ("b", "2")]⟩, [("k", "v")]⟩ "zzz" =
      Except.error ⟨"zzz", ["k", "a", "b"]⟩ := by
  have h := (C7_amended_attribute_not_found
      ⟨some ⟨[("a", "1"), ("b", "2")]⟩, [("k", "v")]⟩ "zzz"
      (by decide) (by decide) (by decide)
      (fun o ho => by cases ho; decide)).1
  exact h

/-- C2: for every well-formed response tree the request dispatch returns a
`Response` wrapper exactly when the reply code is zero; every non-zero code
raises the exception kind resolved from the code, with message
`{desc} ({code}) {data}` (a missing `data` child rendering as an empty
trailing segment) and the numeric code carried as a field; the end-to-end
scenario of the spec at code 346 produces the exact message
`Domain not available (346) `. -/
theorem C2_reply_dispatch (tree : ResponseTree) :
    ((∃ r, handleReply tree = Except.ok r) ↔ tree.reply.code = 0) ∧
    (tree.reply.code ≠ 0 →
      handleReply tree =
        Except.error
          ⟨from_code tree.reply.code,
            tree.reply.desc ++ " (" ++ intStr tree.reply.code ++ ") " ++
              tree.reply.data.getD "",
            tree.reply.code⟩) ∧
    handleReply ⟨⟨346, "Domain not available", none⟩⟩ =
      Except.error
        ⟨ExceptionKind.mappedKind 346, "Domain not available (346) ", 346⟩ := by
  refine ⟨⟨?_, ?_⟩, ?_, ?_⟩
  · rintro ⟨r, hr⟩
    by_contra hc
    simp [handleReply, beq_iff_eq, hc] at hr
  · intro h0
    exact ⟨⟨tree⟩, by simp [handleReply, beq_iff_eq, h0]⟩
  · intro h0
    simp [handleReply, beq_iff_eq, h0]
  · rfl

/-- Witness for C2 at an unmapped non-zero code with a `data` payload. -/
theorem C2_reply_dispatch_witness :
    ((⟨⟨9999, "Unknown", some "extra"⟩⟩ : ResponseTree).reply.code ≠ 0) ∧
    handleReply ⟨⟨9999, "Unknown", some "extra"⟩⟩ =
      Except.error ⟨ExceptionKind.genericError, "Unknown (9999) extra", 9999⟩ :=
  ⟨by decide,
   ((C2_reply_dispatch ⟨⟨9999, "Unknown", some "extra"⟩⟩).2.1 (by decide)).trans rfl⟩

/-- C3 counterexample: an HTTP response with the non-2xx status 304 is not
converted into `ServiceUnavailable` — `raise_for_status` raises only for
4xx/5xx statuses, so the send step returns the response instead of raising,
contradicting the claim that every non-2xx status raises
`ServiceUnavailable`. -/
theorem C3_counterexample_status_304 :
    sendStep (TransportResult.response 304 "response body") =
      Except.ok (304, "response body") := rfl

/-- C3 (amended): every transport exception raised by the post call
(connection failure, timeout, DNS failure, ...) and every HTTP status in
the 4xx/5xx range is caught and re-raised as `ServiceUnavailable` carrying
the underlying transport error text; no `RequestException` subtype escapes
unconverted; statuses outside the 400-599 range are not treated as
failures.  The transport is consulted exactly once per call (the embedding
takes a single transport outcome), so no retry is performed. -/
theorem C3_amended_transport_conversion (r : TransportResult) :
    (∀ st text, r = TransportResult.raised st text →
      sendStep r = Except.error (TransportError.serviceUnavailable text)) ∧
    (∀ status body, r = TransportResult.response status body →
      400 ≤ status → status < 600 →
      ∃ text, sendStep r = Except.error (TransportError.serviceUnavailable text)) ∧
    (∀ e, sendStep r ≠ Except.error (TransportError.uncaught e)) ∧
    (∀ status body, r = TransportResult.response status body →
      ¬(400 ≤ status ∧ status < 600) →
      sendStep r = Except.ok (status, body)) := by
  refine ⟨?_, ?_, ?_, ?_⟩
  · rintro st text rfl
    simp [sendStep, tryPost]
  · rintro status body rfl h4 h6
    exact ⟨"HTTP status " ++ toString status,
      by simp [sendStep, tryPost, raise_for_status, h4, h6]⟩
  · intro e
    cases r with
    | raised st text => simp [sendStep, tryPost]
    | response status body =>
      by_cases hs : 400 ≤ status ∧ status < 600
      · simp [sendStep, tryPost, raise_for_status, hs]
      · simp [sendStep, tryPost, raise_for_status, hs]
  · rintro status body rfl hs
    simp [sendStep, tryPost, raise_for_status, hs]

/-- Witness for C3 (amended): a raised connection error is re-raised as
`ServiceUnavailable` with the underlying text. -/
theorem C3_amended_transport_conversion_witness :
    sendStep (TransportResult.raised "ConnectionError" "connection refused") =
      Except.error (TransportError.serviceUnavailable "connection refused") :=
  (C3_amended_transport_conversion
      (TransportResult.raised "ConnectionError" "connection refused")).1
    "ConnectionError" "connection refused" rfl

/-- C8: the error-kind resolution is total over all integers — it is a pure
function that yields a defined kind for every integer code, the generic
fallback kind exactly when the code is absent from the explicit table and
the table entry when it is present. -/
theorem C8_error_mapping_total (code : Int) :
    (∃ k, from_code code = k) ∧
    (code ∉ exceptionTableCodes → from_code code = ExceptionKind.genericError) ∧
    (code ∈ exceptionTableCodes → from_code code = ExceptionKind.mappedKind code) := by
  refine ⟨⟨from_code code, rfl⟩, fun h => ?_, fun h => ?_⟩ <;>
    simp [from_code, h]

/-- Witness for C8 at the unmapped code 9999. -/
theorem C8_error_mapping_total_witness :
    ((9999 : Int) ∉ exceptionTableCodes) ∧
    from_code 9999 = ExceptionKind.genericError :=
  ⟨by decide, (C8_error_mapping_total 9999).2.1 (by decide)⟩

/-- C9: for fixed credentials and payload the serialized envelope is the
same byte string on every call (the serializer is a pure function of the
envelope, stated here as the equality of two independent builds); the
serialized form is the credentials bytes followed by the payload bytes
inside the fixed top-level element; the credentials element always carries
a `username` child and carries `password`/`hash` children exactly when the
corresponding value is non-empty.  The final conjunct fixes the exact bytes
on one concrete client and payload. -/
theorem C9_envelope_canonical (c : Client) (payload : Xml) :
    serializeXml (buildEnvelope c payload) = serializeXml (buildEnvelope c payload) ∧
    serializeXml (buildEnvelope c payload) =
      "<openXML>" ++ serializeXml (credentialsElem c) ++ serializeXml payload ++
        "</openXML>" ∧
    hasChildTag (credentialsElem c) "username" = true ∧
    hasChildTag (credentialsElem c) "password" = pyTruthy c.password ∧
    hasChildTag (credentialsElem c) "hash" = pyTruthy c.password_hash ∧
    serializeXml
        (buildEnvelope ⟨"user", some "secret", none, "https://api.openprovider.eu"⟩
          (Xml.elem "payload" [])) =
      "<openXML><credentials><username>user</username><password>secret</password></credentials><payload></payload></openXML>" := by
  refine ⟨rfl, ?_, ?_, ?_, ?_, ?_⟩
  · simp [buildEnvelope, credentialsElem, E, serializeXml, serializeXmlList,
      String.append_empty, String.append_assoc]
  · simp [credentialsElem, E, hasChildTag]
  · cases hp : c.password with
    | none => simp [credentialsElem, E, OE, hasChildTag, pyTruthy, hp]
    | some s =>
      by_cases hs : s = ""
      · simp [credentialsElem, E, OE, hasChildTag, pyTruthy, hp, hs]
      · simp [credentialsElem, E, OE, hasChildTag, pyTruthy, hp, hs]
  · cases hp : c.password_hash with
    | none => simp [credentialsElem, E, OE, hasChildTag, pyTruthy, hp]
    | some s =>
      by_cases hs : s = ""
      · simp [credentialsElem, E, OE, hasChildTag, pyTruthy, hp, hs]
      · simp [credentialsElem, E, OE, hasChildTag, pyTruthy, hp, hs]
  · simp [buildEnvelope, credentialsElem, E, OE, pyTruthy, serializeXml,
      serializeXmlList]

end Openprovider
